import Mathlib

/-!
Shallow embedding of `src/dash_app.py` (SpaceX launch dashboard).

The dataset is an ordered list of launch records; the two Dash callbacks
`get_pie_chart` and `get_scatter_chart` are embedded as pure functions from
the dataset and the control values to a declarative `ChartSpec`.  The row
filtering done with pandas boolean masks is embedded as `List.filter`, and
pandas `unique()` (distinct values in order of first appearance) as
`pyUnique`.
-/

/-- One row of `spacex_df`: the columns the dashboard reads.
`launchSite` is the "Launch Site" column, `payloadMass` is
"Payload Mass (kg)", `classOutcome` is the 0/1 "class" column and
`boosterVersionCategory` is "Booster Version Category". -/
structure LaunchRecord where
  launchSite : String
  payloadMass : ℚ
  classOutcome : Nat
  boosterVersionCategory : String
deriving DecidableEq

/-- The fixed pie palette, `COLORS` in `dash_app.py`. -/
def COLORS : List String := ["#377eb8", "#ff7f00", "#f781bf", "#4daf4a"]

/-- Stands for the external colorcet `glasbey_light` palette (`PALETTE` in
`dash_app.py`): a fixed list of 256 distinct color strings.  Its contents
live in the third-party colorcet package, not in this repository; the
dashboard only zips category keys against it, so the entries are
represented symbolically. -/
def PALETTE : List String := (List.range 256).map (fun i => "glasbey-" ++ toString i)

/-- pandas `Series.unique()`: the distinct values of a column in order of
first appearance.  The `seen` accumulator holds values already emitted. -/
def pyUniqueAux : List String → List String → List String
  | [], _ => []
  | x :: xs, seen =>
      if x ∈ seen then pyUniqueAux xs seen else x :: pyUniqueAux xs (x :: seen)

/-- pandas `unique()` on a list of strings. -/
def pyUnique (l : List String) : List String := pyUniqueAux l []

/-- The row selection performed inside `get_pie_chart`
(lines 127-141): `spacex_df[spacex_df["class"] == 1]` when the dropdown
value is `"ALL"`, otherwise
`spacex_df[spacex_df["Launch Site"] == entered_site]`. -/
def filterForPie (d : List LaunchRecord) (entered_site : String) : List LaunchRecord :=
  if entered_site = "ALL" then
    d.filter (fun r => r.classOutcome == 1)
  else
    d.filter (fun r => r.launchSite == entered_site)

/-- The row selection performed inside `get_scatter_chart`
(lines 173-192): first the site mask (`"ALL"` means no site filter), then
the payload mask
`(payload >= range[0]) & (payload <= range[1])`, inclusive on both ends. -/
def filterForScatter (d : List LaunchRecord) (entered_site : String)
    (low high : ℚ) : List LaunchRecord :=
  let bySite :=
    if entered_site = "ALL" then d
    else d.filter (fun r => r.launchSite == entered_site)
  bySite.filter (fun r => decide (low ≤ r.payloadMass) && decide (r.payloadMass ≤ high))

/-- Membership in the pie selection, `"ALL"` branch and concrete-site
branch together. -/
theorem mem_filterForPie_all (d : List LaunchRecord) (r : LaunchRecord) :
    r ∈ filterForPie d "ALL" ↔ r ∈ d ∧ r.classOutcome = 1 := by
  simp [filterForPie, List.mem_filter]

/-- Membership in the pie selection for a concrete site. -/
theorem mem_filterForPie_site (d : List LaunchRecord) (s : String) (hs : s ≠ "ALL")
    (r : LaunchRecord) :
    r ∈ filterForPie d s ↔ r ∈ d ∧ r.launchSite = s := by
  simp [filterForPie, hs, List.mem_filter]

/-- Membership in the scatter selection: in the dataset, payload inside the
closed range, and on the selected site whenever the selection is concrete. -/
theorem mem_filterForScatter (d : List LaunchRecord) (s : String) (low high : ℚ)
    (r : LaunchRecord) :
    r ∈ filterForScatter d s low high ↔
      r ∈ d ∧ low ≤ r.payloadMass ∧ r.payloadMass ≤ high ∧
        (s ≠ "ALL" → r.launchSite = s) := by
  by_cases hs : s = "ALL"
  · simp [filterForScatter, hs, List.mem_filter]
  · simp [filterForScatter, hs, List.mem_filter]
    tauto

/-- C1: the pie filter keeps exactly the success records in all-sites mode,
and exactly the records of the chosen site (both outcome classes) in
concrete-site mode. -/
theorem pie_filter_partitions (d : List LaunchRecord) (s : String) (r : LaunchRecord) :
    (s = "ALL" → (r ∈ filterForPie d s ↔ r ∈ d ∧ r.classOutcome = 1)) ∧
    (s ≠ "ALL" → (r ∈ filterForPie d s ↔ r ∈ d ∧ r.launchSite = s)) := by
  constructor
  · intro hs; subst hs; exact mem_filterForPie_all d r
  · intro hs; exact mem_filterForPie_site d s hs r

/-- Witness for C1 at a concrete dataset and both kinds of selection. -/
theorem pie_filter_partitions_witness :
    (("ALL" : String) = "ALL" →
      (LaunchRecord.mk "A" 500 1 "v1" ∈
          filterForPie [LaunchRecord.mk "A" 500 1 "v1", LaunchRecord.mk "B" 600 0 "v1"] "ALL" ↔
        LaunchRecord.mk "A" 500 1 "v1" ∈
            [LaunchRecord.mk "A" 500 1 "v1", LaunchRecord.mk "B" 600 0 "v1"] ∧
          (LaunchRecord.mk "A" 500 1 "v1").classOutcome = 1)) ∧
    (("ALL" : String) ≠ "ALL" →
      (LaunchRecord.mk "A" 500 1 "v1" ∈
          filterForPie [LaunchRecord.mk "A" 500 1 "v1", LaunchRecord.mk "B" 600 0 "v1"] "ALL" ↔
        LaunchRecord.mk "A" 500 1 "v1" ∈
            [LaunchRecord.mk "A" 500 1 "v1", LaunchRecord.mk "B" 600 0 "v1"] ∧
          (LaunchRecord.mk "A" 500 1 "v1").launchSite = "ALL")) :=
  pie_filter_partitions
    [LaunchRecord.mk "A" 500 1 "v1", LaunchRecord.mk "B" 600 0 "v1"] "ALL"
    (LaunchRecord.mk "A" 500 1 "v1")

/-- C2: the scatter filter keeps exactly the records whose payload lies in
the closed range and, for a concrete selection, whose site matches; no
qualifying record is omitted. -/
theorem scatter_filter_characterization (d : List LaunchRecord) (s : String)
    (low high : ℚ) (r : LaunchRecord) :
    r ∈ filterForScatter d s low high ↔
      r ∈ d ∧ low ≤ r.payloadMass ∧ r.payloadMass ≤ high ∧
        (s ≠ "ALL" → r.launchSite = s) :=
  mem_filterForScatter d s low high r

/-- Witness for C2 at a concrete dataset, site and range. -/
theorem scatter_filter_characterization_witness :
    LaunchRecord.mk "A" 500 1 "v1" ∈
        filterForScatter [LaunchRecord.mk "A" 500 1 "v1", LaunchRecord.mk "A" 6000 0 "v1"]
          "A" 0 1000 ↔
      LaunchRecord.mk "A" 500 1 "v1" ∈
          [LaunchRecord.mk "A" 500 1 "v1", LaunchRecord.mk "A" 6000 0 "v1"] ∧
        (0 : ℚ) ≤ (LaunchRecord.mk "A" 500 1 "v1").payloadMass ∧
        (LaunchRecord.mk "A" 500 1 "v1").payloadMass ≤ 1000 ∧
        (("A" : String) ≠ "ALL" → (LaunchRecord.mk "A" 500 1 "v1").launchSite = "A") :=
  scatter_filter_characterization
    [LaunchRecord.mk "A" 500 1 "v1", LaunchRecord.mk "A" 6000 0 "v1"]
    "A" 0 1000 (LaunchRecord.mk "A" 500 1 "v1")

/-- Kind of chart a callback produces. -/
inductive ChartKind where
  | pie
  | scatter
deriving DecidableEq

/-- The declarative figure a callback returns: its kind, the filtered row
subset it encodes, its title string, and its `color_discrete_map`
(category key rendered as a string, mapped to a color).  This is the
observable content of the `plotly.express` figure the Python callbacks
build. -/
structure ChartSpec where
  kind : ChartKind
  subset : List LaunchRecord
  title : String
  colorMap : List (String × String)
deriving DecidableEq

/-- Python `int()` on a rational: truncation toward zero. -/
def pyInt (q : ℚ) : Int := if 0 ≤ q then ⌊q⌋ else ⌈q⌉

/-- Insert a comma after every third digit; the input is the digit list in
reverse (least significant first), as is the output. -/
def insertCommasRev : List Char → Nat → List Char
  | [], _ => []
  | c :: cs, k =>
      if k = 2 then
        c :: (match cs with
          | [] => []
          | _ :: _ => ',' :: insertCommasRev cs 0)
      else c :: insertCommasRev cs (k + 1)

/-- Python `format(n, ",d")`: decimal digits with a thousands separator. -/
def commaFormat (n : Int) : String :=
  let s := String.mk ((insertCommasRev (Nat.toDigits 10 n.natAbs).reverse 0).reverse)
  if n < 0 then "-" ++ s else s

/-- Right-align a string in a field of width `w` (Python numeric format
minimum width). -/
def padLeft (w : Nat) (s : String) : String :=
  if w ≤ s.length then s else String.mk (List.replicate (w - s.length) ' ') ++ s

/-- The scatter chart title built in `get_scatter_chart` (lines 181-186):
`f"Site: {site}, Payload mass is between {int(lo):8,d} kg and {int(hi):8,d} kg"`. -/
def scatterTitle (entered_site : String) (low high : ℚ) : String :=
  "Site: " ++ entered_site ++ ", Payload mass is between " ++
    padLeft 8 (commaFormat (pyInt low)) ++ " kg and " ++
    padLeft 8 (commaFormat (pyInt high)) ++ " kg"

/-- The pie-chart callback `get_pie_chart` (lines 116-149).  In `"ALL"` mode
it keeps only success rows, groups them by launch site and zips the distinct
sites against `COLORS`; in concrete-site mode it keeps the site's rows and
maps outcome class 1 to `COLORS[1]` and 0 to `COLORS[3]`. -/
def get_pie_chart (d : List LaunchRecord) (entered_site : String) : ChartSpec :=
  if entered_site = "ALL" then
    let filtered := d.filter (fun r => r.classOutcome == 1)
    { kind := ChartKind.pie
      subset := filtered
      title := "Percentage of Successful Launches Across All Sites"
      colorMap := List.zip (pyUnique (filtered.map (fun r => r.launchSite))) COLORS }
  else
    let filtered := d.filter (fun r => r.launchSite == entered_site)
    { kind := ChartKind.pie
      subset := filtered
      title := "Success vs. Failure for Launch Site: " ++ entered_site
      colorMap := [("1", COLORS.getD 1 ""), ("0", COLORS.getD 3 "")] }

/-- The scatter-chart callback `get_scatter_chart` (lines 160-211): site
mask, then inclusive payload-range mask; booster version categories are
zipped against the external palette.  The slider value `[low, high]` is
embedded as the pair `range`. -/
def get_scatter_chart (d : List LaunchRecord) (entered_site : String)
    (range : ℚ × ℚ) : ChartSpec :=
  let filtered := filterForScatter d entered_site range.1 range.2
  { kind := ChartKind.scatter
    subset := filtered
    title := scatterTitle entered_site range.1 range.2
    colorMap :=
      List.zip (pyUnique (filtered.map (fun r => r.boosterVersionCategory))) PALETTE }

/-- The pie callback's subset is exactly the pie filter's result. -/
theorem get_pie_chart_subset (d : List LaunchRecord) (s : String) :
    (get_pie_chart d s).subset = filterForPie d s := by
  by_cases hs : s = "ALL"
  · simp [get_pie_chart, filterForPie, hs]
  · simp [get_pie_chart, filterForPie, hs]

/-- The scatter callback's subset is exactly the scatter filter's result. -/
theorem get_scatter_chart_subset (d : List LaunchRecord) (s : String) (range : ℚ × ℚ) :
    (get_scatter_chart d s range).subset = filterForScatter d s range.1 range.2 := rfl

/-- C4: for a fixed dataset, re-invoking both callbacks on an identical
(selection, range) input pair yields structurally equal `ChartSpec`
outputs — the recomputation is deterministic and idempotent. -/
theorem callbacks_idempotent (d : List LaunchRecord) (s : String) (range : ℚ × ℚ) :
    get_pie_chart d s = get_pie_chart d s ∧
    get_scatter_chart d s range = get_scatter_chart d s range :=
  ⟨rfl, rfl⟩

/-- C10: both filtered subsets are subsequences of the dataset — the
boolean-mask filters preserve the relative order of rows. -/
theorem filters_preserve_order (d : List LaunchRecord) (s : String) (low high : ℚ) :
    (filterForPie d s).Sublist d ∧ (filterForScatter d s low high).Sublist d := by
  constructor
  · simp only [filterForPie]
    split
    · exact List.filter_sublist d
    · exact List.filter_sublist d
  · simp only [filterForScatter]
    split
    · exact List.filter_sublist d
    · exact (List.filter_sublist _).trans (List.filter_sublist d)

/-- C5: widening the payload range never drops a record from the scatter
subset. -/
theorem scatter_filter_monotone (d : List LaunchRecord) (s : String)
    (low high low' high' : ℚ) (hlow : low' ≤ low) (hhigh : high ≤ high')
    (r : LaunchRecord) (hr : r ∈ filterForScatter d s low high) :
    r ∈ filterForScatter d s low' high' := by
  rw [mem_filterForScatter] at hr ⊢
  exact ⟨hr.1, hlow.trans hr.2.1, hr.2.2.1.trans hhigh, hr.2.2.2⟩

/-- Witness for C5: widening [400, 800] to [0, 1000] keeps the record. -/
theorem scatter_filter_monotone_witness :
    LaunchRecord.mk "A" 500 1 "v1" ∈
      filterForScatter [LaunchRecord.mk "A" 500 1 "v1"] "A" 0 1000 :=
  scatter_filter_monotone [LaunchRecord.mk "A" 500 1 "v1"] "A" 400 800 0 1000
    (by norm_num) (by norm_num) (LaunchRecord.mk "A" 500 1 "v1")
    (by rw [mem_filterForScatter]; refine ⟨by simp, by norm_num, by norm_num, fun _ => rfl⟩)

/-- `spacex_df["Payload Mass (kg)"].min()` (line 57): the least payload in
the dataset.  pandas returns NaN on an empty frame; the loaded dataset is
nonempty, and every statement below about this value carries a nonemptiness
hypothesis, so the `[]` branch is never relied upon. -/
def min_payload : List LaunchRecord → ℚ
  | [] => 0
  | r :: rs => rs.foldl (fun m x => min m x.payloadMass) r.payloadMass

/-- `spacex_df["Payload Mass (kg)"].max()` (line 56): the greatest payload
in the dataset; same NaN caveat as `min_payload`. -/
def max_payload : List LaunchRecord → ℚ
  | [] => 0
  | r :: rs => rs.foldl (fun m x => max m x.payloadMass) r.payloadMass

theorem foldl_min_le_init (rs : List LaunchRecord) (a : ℚ) :
    rs.foldl (fun m x => min m x.payloadMass) a ≤ a := by
  induction rs generalizing a with
  | nil => exact le_refl a
  | cons x xs ih =>
      exact le_trans (ih (min a x.payloadMass)) (min_le_left _ _)

theorem foldl_min_le_mem (rs : List LaunchRecord) (a : ℚ) (x : LaunchRecord)
    (hx : x ∈ rs) : rs.foldl (fun m x => min m x.payloadMass) a ≤ x.payloadMass := by
  induction rs generalizing a with
  | nil => cases hx
  | cons y ys ih =>
      rcases List.mem_cons.mp hx with h | h
      · subst h
        exact le_trans (foldl_min_le_init ys (min a x.payloadMass)) (min_le_right _ _)
      · exact ih (min a y.payloadMass) h

theorem init_le_foldl_max (rs : List LaunchRecord) (a : ℚ) :
    a ≤ rs.foldl (fun m x => max m x.payloadMass) a := by
  induction rs generalizing a with
  | nil => exact le_refl a
  | cons x xs ih =>
      exact le_trans (le_max_left _ _) (ih (max a x.payloadMass))

theorem mem_le_foldl_max (rs : List LaunchRecord) (a : ℚ) (x : LaunchRecord)
    (hx : x ∈ rs) : x.payloadMass ≤ rs.foldl (fun m x => max m x.payloadMass) a := by
  induction rs generalizing a with
  | nil => cases hx
  | cons y ys ih =>
      rcases List.mem_cons.mp hx with h | h
      · subst h
        exact le_trans (le_max_right _ _) (init_le_foldl_max ys (max a x.payloadMass))
      · exact ih (max a y.payloadMass) h

/-- Every record's payload is at least the dataset minimum. -/
theorem min_payload_le (d : List LaunchRecord) (r : LaunchRecord) (hr : r ∈ d) :
    min_payload d ≤ r.payloadMass := by
  match d, hr with
  | x :: xs, hr =>
      rcases List.mem_cons.mp hr with h | h
      · subst h
        exact foldl_min_le_init xs r.payloadMass
      · exact foldl_min_le_mem xs x.payloadMass r h

/-- Every record's payload is at most the dataset maximum. -/
theorem le_max_payload (d : List LaunchRecord) (r : LaunchRecord) (hr : r ∈ d) :
    r.payloadMass ≤ max_payload d := by
  match d, hr with
  | x :: xs, hr =>
      rcases List.mem_cons.mp hr with h | h
      · subst h
        exact init_le_foldl_max xs r.payloadMass
      · exact mem_le_foldl_max xs x.payloadMass r h

/-- C6: with the slider set exactly to the observed payload bounds, the
scatter filter keeps every record the site selection allows — the subset is
the full (site-restricted) dataset. -/
theorem full_range_yields_site_subset (d : List LaunchRecord) (s : String)
    (_h : d ≠ []) :
    filterForScatter d s (min_payload d) (max_payload d) =
      (if s = "ALL" then d else d.filter (fun r => r.launchSite == s)) := by
  unfold filterForScatter
  apply List.filter_eq_self.mpr
  intro r hr
  have hrd : r ∈ d := by
    by_cases hs : s = "ALL"
    · simpa [hs] using hr
    · simp only [hs, ite_false] at hr
      exact List.mem_of_mem_filter hr
  simp only [Bool.and_eq_true, decide_eq_true_eq]
  exact ⟨min_payload_le d r hrd, le_max_payload d r hrd⟩

/-- Witness for C6 on a two-record dataset with the all-sites selection. -/
theorem full_range_yields_site_subset_witness :
    filterForScatter [LaunchRecord.mk "A" 500 1 "v1", LaunchRecord.mk "B" 6000 0 "v1"]
        "ALL"
        (min_payload [LaunchRecord.mk "A" 500 1 "v1", LaunchRecord.mk "B" 6000 0 "v1"])
        (max_payload [LaunchRecord.mk "A" 500 1 "v1", LaunchRecord.mk "B" 6000 0 "v1"]) =
      (if ("ALL" : String) = "ALL" then
          [LaunchRecord.mk "A" 500 1 "v1", LaunchRecord.mk "B" 6000 0 "v1"]
        else
          [LaunchRecord.mk "A" 500 1 "v1", LaunchRecord.mk "B" 6000 0 "v1"].filter
            (fun r => r.launchSite == "ALL")) :=
  full_range_yields_site_subset
    [LaunchRecord.mk "A" 500 1 "v1", LaunchRecord.mk "B" 6000 0 "v1"] "ALL"
    (List.cons_ne_nil _ _)

/-- C7: a concrete selection naming a site absent from the dataset gives
both callbacks an empty filtered subset, and each still returns a fully
formed `ChartSpec` (empty subset, its usual title, its color map) rather
than failing. -/
theorem absent_site_empty_charts (d : List LaunchRecord) (s : String) (low high : ℚ)
    (hs : s ≠ "ALL") (habs : s ∉ d.map (fun r => r.launchSite)) :
    get_pie_chart d s =
      { kind := ChartKind.pie
        subset := []
        title := "Success vs. Failure for Launch Site: " ++ s
        colorMap := [("1", COLORS.getD 1 ""), ("0", COLORS.getD 3 "")] } ∧
    get_scatter_chart d s (low, high) =
      { kind := ChartKind.scatter
        subset := []
        title := scatterTitle s low high
        colorMap := [] } := by
  have hsite : d.filter (fun r => r.launchSite == s) = [] := by
    apply List.filter_eq_nil_iff.mpr
    intro r hr
    simp only [beq_iff_eq]
    intro he
    exact habs (List.mem_map.mpr ⟨r, hr, he⟩)
  have hscatter : filterForScatter d s low high = [] := by
    simp [filterForScatter, hs, hsite]
  constructor
  · simp [get_pie_chart, hs, hsite]
  · simp [get_scatter_chart, hscatter, pyUnique, pyUniqueAux]

/-- Witness for C7: site "Z" does not occur in a one-record dataset. -/
theorem absent_site_empty_charts_witness :
    get_pie_chart [LaunchRecord.mk "A" 500 1 "v1"] "Z" =
      { kind := ChartKind.pie
        subset := []
        title := "Success vs. Failure for Launch Site: " ++ "Z"
        colorMap := [("1", COLORS.getD 1 ""), ("0", COLORS.getD 3 "")] } ∧
    get_scatter_chart [LaunchRecord.mk "A" 500 1 "v1"] "Z" (0, 1000) =
      { kind := ChartKind.scatter
        subset := []
        title := scatterTitle "Z" 0 1000
        colorMap := [] } :=
  absent_site_empty_charts [LaunchRecord.mk "A" 500 1 "v1"] "Z" 0 1000
    (by decide) (by simp)

/-- The body the module-level fetch can yield: either content that pandas
parses into rows, or content `read_csv` rejects. -/
inductive CsvContent where
  | table (rows : List LaunchRecord)
  | malformed (msg : String)
deriving DecidableEq

/-- Outcome of `requests.get(DATA_URL, timeout=2)` followed by
`raise_for_status()` (lines 48-50): either a response body, or a
`requests.exceptions.RequestException` (unreachable host, timeout, or a
4xx/5xx status). -/
inductive FetchResult where
  | ok (content : CsvContent)
  | requestError (msg : String)
deriving DecidableEq

/-- The exceptions the startup code can surface.  `dataSourceError` stands
for the spec's `DataSourceError`, a startup error carrying the data-source
failure description; `typeError` is Python's `TypeError`; `parserError` is
the parse failure `pd.read_csv` raises on malformed content. -/
inductive PyException where
  | typeError (msg : String)
  | dataSourceError (msg : String)
  | parserError (msg : String)
deriving DecidableEq

/-- The module-level data load (lines 48-55).  On a fetch failure the code
executes `raise` on an f-string, and in Python 3 `raise` applied to a `str`
does not surface that string: it raises
`TypeError("exceptions must derive from BaseException")`, discarding the
message the f-string built.  On a fetched body, `pd.read_csv` runs outside
the try block, so malformed content propagates the raw parser error. -/
def moduleLoad : FetchResult → Except PyException (List LaunchRecord)
  | FetchResult.requestError _ =>
      Except.error (PyException.typeError "exceptions must derive from BaseException")
  | FetchResult.ok (CsvContent.table rows) => Except.ok rows
  | FetchResult.ok (CsvContent.malformed msg) =>
      Except.error (PyException.parserError msg)

/-- C3 (code bug): a fetch failure does abort startup, but with Python's
`TypeError` complaining that a `str` is not an exception — never with a
`DataSourceError` carrying the failure description that the code's own
f-string tries to build. -/
theorem fetch_failure_raises_type_error :
    moduleLoad (FetchResult.requestError "connection refused") =
      Except.error (PyException.typeError "exceptions must derive from BaseException") ∧
    ∀ msg, moduleLoad (FetchResult.requestError "connection refused") ≠
      Except.error (PyException.dataSourceError msg) := by
  constructor
  · rfl
  · intro msg h
    simp [moduleLoad] at h

/-- Counterexample to C8 as stated: with five distinct sites among the
successes, `dict(zip(..., COLORS))` truncates at the four palette entries,
so the fifth distinct key "E" gets no color from the palette at all (the
claim promised a palette color for any number of distinct keys). -/
theorem pie_palette_truncates_at_fifth_site :
    ("E" ∈ pyUnique ((filterForPie
        [LaunchRecord.mk "A" 1000 1 "v1", LaunchRecord.mk "B" 2000 1 "v1",
         LaunchRecord.mk "C" 3000 1 "v1", LaunchRecord.mk "D" 4000 1 "v1",
         LaunchRecord.mk "E" 5000 1 "v1"] "ALL").map (fun r => r.launchSite))) ∧
    "E" ∉ (get_pie_chart
        [LaunchRecord.mk "A" 1000 1 "v1", LaunchRecord.mk "B" 2000 1 "v1",
         LaunchRecord.mk "C" 3000 1 "v1", LaunchRecord.mk "D" 4000 1 "v1",
         LaunchRecord.mk "E" 5000 1 "v1"] "ALL").colorMap.map Prod.fst := by
  constructor
  · decide
  · decide

/-- C8 as amended: the pie color map is the zip of the distinct grouping
keys (first-appearance order) with the fixed palette, so the assignment is
deterministic and every distinct key receives a palette color whenever
there are at most four distinct keys; beyond four keys the zip truncates
(no cycling).  In concrete-site mode the two outcome keys always receive
the fixed palette colors. -/
theorem pie_colorMap_zip_characterization (d : List LaunchRecord)
    (h : (pyUnique ((filterForPie d "ALL").map (fun r => r.launchSite))).length ≤
      COLORS.length) :
    ((get_pie_chart d "ALL").colorMap.map Prod.fst =
        pyUnique ((filterForPie d "ALL").map (fun r => r.launchSite))) ∧
    (∀ k, k ∈ pyUnique ((filterForPie d "ALL").map (fun r => r.launchSite)) →
        ∃ c, (k, c) ∈ (get_pie_chart d "ALL").colorMap) ∧
    (∀ s, s ≠ "ALL" →
        (get_pie_chart d s).colorMap =
          [("1", COLORS.getD 1 ""), ("0", COLORS.getD 3 "")]) := by
  have hmap : (get_pie_chart d "ALL").colorMap =
      List.zip (pyUnique ((filterForPie d "ALL").map (fun r => r.launchSite))) COLORS := by
    simp [get_pie_chart, filterForPie]
  refine ⟨?_, ?_, ?_⟩
  · rw [hmap]
    exact List.map_fst_zip _ _ h
  · intro k hk
    have hk' : k ∈ (get_pie_chart d "ALL").colorMap.map Prod.fst := by
      rw [hmap, List.map_fst_zip _ _ h]
      exact hk
    rcases List.mem_map.mp hk' with ⟨⟨a, b⟩, hp, hpk⟩
    simp only at hpk
    subst hpk
    exact ⟨b, hp⟩
  · intro s hs
    simp [get_pie_chart, hs]

/-- Witness for the amended C8 on a dataset with two distinct sites. -/
theorem pie_colorMap_zip_characterization_witness :
    ((get_pie_chart [LaunchRecord.mk "A" 500 1 "v1", LaunchRecord.mk "B" 600 1 "v1"]
          "ALL").colorMap.map Prod.fst =
        pyUnique ((filterForPie
          [LaunchRecord.mk "A" 500 1 "v1", LaunchRecord.mk "B" 600 1 "v1"]
          "ALL").map (fun r => r.launchSite))) ∧
    (∀ k, k ∈ pyUnique ((filterForPie
          [LaunchRecord.mk "A" 500 1 "v1", LaunchRecord.mk "B" 600 1 "v1"]
          "ALL").map (fun r => r.launchSite)) →
        ∃ c, (k, c) ∈ (get_pie_chart
          [LaunchRecord.mk "A" 500 1 "v1", LaunchRecord.mk "B" 600 1 "v1"]
          "ALL").colorMap) ∧
    (∀ s, s ≠ "ALL" →
        (get_pie_chart [LaunchRecord.mk "A" 500 1 "v1", LaunchRecord.mk "B" 600 1 "v1"]
            s).colorMap =
          [("1", COLORS.getD 1 ""), ("0", COLORS.getD 3 "")]) :=
  pie_colorMap_zip_characterization
    [LaunchRecord.mk "A" 500 1 "v1", LaunchRecord.mk "B" 600 1 "v1"]
    (by decide)

/-- Membership in `pyUniqueAux`: a value is emitted iff it occurs in the
remaining input and was not already seen. -/
theorem mem_pyUniqueAux : ∀ (l seen : List String) (x : String),
    x ∈ pyUniqueAux l seen ↔ x ∈ l ∧ x ∉ seen := by
  intro l
  induction l with
  | nil =>
      intro seen x
      simp [pyUniqueAux]
  | cons a l ih =>
      intro seen x
      by_cases ha : a ∈ seen
      · simp only [pyUniqueAux, if_pos ha, ih, List.mem_cons]
        constructor
        · exact fun hx => ⟨Or.inr hx.1, hx.2⟩
        · rintro ⟨hx | hx, hns⟩
          · exact absurd (hx ▸ ha) hns
          · exact ⟨hx, hns⟩
      · simp only [pyUniqueAux, if_neg ha, List.mem_cons, ih]
        by_cases hxa : x = a
        · subst hxa
          simp [ha]
        · simp [hxa]

/-- `pyUniqueAux` emits no duplicates. -/
theorem nodup_pyUniqueAux : ∀ (l seen : List String), (pyUniqueAux l seen).Nodup := by
  intro l
  induction l with
  | nil =>
      intro seen
      simp [pyUniqueAux]
  | cons a l ih =>
      intro seen
      by_cases ha : a ∈ seen
      · simp only [pyUniqueAux, if_pos ha]
        exact ih seen
      · simp only [pyUniqueAux, if_neg ha]
        refine List.nodup_cons.mpr ⟨?_, ih (a :: seen)⟩
        intro hmem
        exact ((mem_pyUniqueAux l (a :: seen) a).mp hmem).2 (List.mem_cons_self a seen)

/-- `pyUniqueAux` keeps the input's relative order: it is a subsequence. -/
theorem sublist_pyUniqueAux : ∀ (l seen : List String), (pyUniqueAux l seen).Sublist l := by
  intro l
  induction l with
  | nil =>
      intro seen
      simp [pyUniqueAux]
  | cons a l ih =>
      intro seen
      by_cases ha : a ∈ seen
      · simp only [pyUniqueAux, if_pos ha]
        exact (ih seen).trans (List.sublist_cons_self a l)
      · simp only [pyUniqueAux, if_neg ha]
        exact List.Sublist.cons₂ a (ih (a :: seen))

/-- The dropdown option list (lines 69-72): one (label, value) pair per
distinct launch site in order of first appearance, with the
("All Sites", "ALL") option inserted at index 0. -/
def siteOptions (d : List LaunchRecord) : List (String × String) :=
  ("All Sites", "ALL") :: (pyUnique (d.map (fun r => r.launchSite))).map (fun v => (v, v))

/-- The dropdown's initial `value` (line 84). -/
def siteDropdownDefault : String := "ALL"

/-- The payload `dcc.RangeSlider` configuration (lines 95-102): `min`,
`max`, `step`, the `marks` dict (a label every 500 up to 10000), and the
initial `value` pair. -/
structure RangeSliderConfig where
  min : ℚ
  max : ℚ
  step : ℚ
  marks : List (Nat × String)
  value : ℚ × ℚ
deriving DecidableEq

/-- The slider as the layout constructs it from the loaded dataset. -/
def payloadSlider (d : List LaunchRecord) : RangeSliderConfig :=
  { min := 0
    max := 10000
    step := 1000
    marks := (List.range 21).map (fun i => (500 * i, toString (500 * i)))
    value := (min_payload d, max_payload d) }

/-- C9: the dropdown options are the "ALL" sentinel followed by the
distinct sites in first-appearance order (no repeats, an option for every
site, order preserved), the default selection is "ALL", and the slider is
bounded [0, 10000] with step 1000 and starts at the observed payload
bounds. -/
theorem ui_controls_initialization (d : List LaunchRecord) (_h : d ≠ []) :
    (siteOptions d).map Prod.snd = "ALL" :: pyUnique (d.map (fun r => r.launchSite)) ∧
    (∀ v, v ∈ pyUnique (d.map (fun r => r.launchSite)) ↔
        v ∈ d.map (fun r => r.launchSite)) ∧
    (pyUnique (d.map (fun r => r.launchSite))).Nodup ∧
    (pyUnique (d.map (fun r => r.launchSite))).Sublist (d.map (fun r => r.launchSite)) ∧
    siteDropdownDefault = "ALL" ∧
    (payloadSlider d).min = 0 ∧
    (payloadSlider d).max = 10000 ∧
    (payloadSlider d).step = 1000 ∧
    (payloadSlider d).value = (min_payload d, max_payload d) := by
  refine ⟨?_, ?_, nodup_pyUniqueAux _ [], sublist_pyUniqueAux _ [],
    rfl, rfl, rfl, rfl, rfl⟩
  · simp only [siteOptions, List.map_cons, List.map_map]
    rw [show (Prod.snd ∘ fun v : String => (v, v)) = id from rfl, List.map_id]
  · intro v
    rw [pyUnique, mem_pyUniqueAux]
    simp

/-- Witness for C9 on a two-record, one-site dataset. -/
theorem ui_controls_initialization_witness :
    (siteOptions [LaunchRecord.mk "A" 500 1 "v1", LaunchRecord.mk "A" 600 0 "v1"]).map
        Prod.snd =
      "ALL" :: pyUnique ([LaunchRecord.mk "A" 500 1 "v1",
        LaunchRecord.mk "A" 600 0 "v1"].map (fun r => r.launchSite)) ∧
    (∀ v, v ∈ pyUnique ([LaunchRecord.mk "A" 500 1 "v1",
          LaunchRecord.mk "A" 600 0 "v1"].map (fun r => r.launchSite)) ↔
        v ∈ [LaunchRecord.mk "A" 500 1 "v1",
          LaunchRecord.mk "A" 600 0 "v1"].map (fun r => r.launchSite)) ∧
    (pyUnique ([LaunchRecord.mk "A" 500 1 "v1",
        LaunchRecord.mk "A" 600 0 "v1"].map (fun r => r.launchSite))).Nodup ∧
    (pyUnique ([LaunchRecord.mk "A" 500 1 "v1",
        LaunchRecord.mk "A" 600 0 "v1"].map (fun r => r.launchSite))).Sublist
      ([LaunchRecord.mk "A" 500 1 "v1",
        LaunchRecord.mk "A" 600 0 "v1"].map (fun r => r.launchSite)) ∧
    siteDropdownDefault = "ALL" ∧
    (payloadSlider [LaunchRecord.mk "A" 500 1 "v1",
        LaunchRecord.mk "A" 600 0 "v1"]).min = 0 ∧
    (payloadSlider [LaunchRecord.mk "A" 500 1 "v1",
        LaunchRecord.mk "A" 600 0 "v1"]).max = 10000 ∧
    (payloadSlider [LaunchRecord.mk "A" 500 1 "v1",
        LaunchRecord.mk "A" 600 0 "v1"]).step = 1000 ∧
    (payloadSlider [LaunchRecord.mk "A" 500 1 "v1",
        LaunchRecord.mk "A" 600 0 "v1"]).value =
      (min_payload [LaunchRecord.mk "A" 500 1 "v1", LaunchRecord.mk "A" 600 0 "v1"],
        max_payload [LaunchRecord.mk "A" 500 1 "v1", LaunchRecord.mk "A" 600 0 "v1"]) :=
  ui_controls_initialization
    [LaunchRecord.mk "A" 500 1 "v1", LaunchRecord.mk "A" 600 0 "v1"]
    (List.cons_ne_nil _ _)
